import Mathlib

/-!
Shallow embedding of the credential-rotating request dispatcher of
`src/services/apiClient.ts` (`fetchWithTokenRotation` and its helpers), and of
the direct (rotation-bypassed) invocation paths of
`src/services/veo3Service.ts` (`generateVideoWithVeo3`) and
`src/services/imagenService` (`generateImageWithImagen`, shipped in the same
source file as `apiClient.ts` here).

External effects (telemetry `addLogEntry`, `eventBus.dispatch`, the status
callback, the admission-gate RPC, timed sleeps, transport calls) are recorded
as an ordered event trace.  Nondeterministic inputs (the stored tokens, the
refill RPC, `Math.random`, the gate outcomes, the per-attempt transport
outcomes) are supplied through an explicit environment.
-/

namespace Monoklix

/-- One stored credential, as handled by `apiClient.ts`:
`{ token: string; createdAt: string }`. -/
structure Token where
  token : String
  createdAt : String
deriving DecidableEq, Repr

/-- Outcome of one `supabase.rpc('request_generation_slot', …)` call:
either `{ error }` or `{ data: acquired }`. -/
inductive GateResult where
  | err (msg : String)
  | ok (acquired : Bool)
deriving DecidableEq, Repr

/-- A parsed JSON response body, keeping only the fields the dispatcher
inspects: `data.error?.message`, `data.message`, and an opaque payload. -/
structure Body where
  errorMessage : Option String
  message : Option String
  payload : String
deriving DecidableEq, Repr

/-- Outcome of one `fetch` + `response.json()` round trip: either the pair
throws (network failure or unparseable body) or a response with a status,
`response.ok`, and a parsed body is produced. -/
inductive FetchResult where
  | thrown (msg : String)
  | resp (status : Nat) (ok : Bool) (body : Body)
deriving DecidableEq, Repr

/-- A telemetry entry as passed to `addLogEntry`. -/
structure LogEntry where
  model : String
  prompt : String
  output : String
  status : String
  error : Option String
deriving DecidableEq, Repr

/-- Observable events of one dispatch, in program order. -/
inductive Ev where
  | gateCall (serverUrl : String) (r : GateResult)
  | sleep (ms : Nat)
  | statusUpdate (s : String)
  | log (e : LogEntry)
  | refillCall
  | attempt (tokenValue : String)
  | bus (name : String)
deriving DecidableEq, Repr

/-- The ambient state a dispatch call reads: the stores, the refill RPC, the
random stream, the gate result stream, the per-attempt transport outcomes,
and the proxy-selection inputs. -/
structure Env where
  /-- `localStorage` personal token value (`user.personalAuthToken`). -/
  personalAuthToken : Option String
  /-- `sessionStorage` shared token pool (`veoAuthTokens`). -/
  shared : List Token
  /-- Outcome of `getVeoAuthTokens()` (the refill RPC). -/
  refill : Except String (List Token)
  /-- Stream of random draws: the shuffle at step `i` uses `rand i % (i+1)`
  for `Math.floor(Math.random() * (i + 1))`. -/
  rand : Nat → Nat
  /-- Result of the n-th `request_generation_slot` call of this dispatch. -/
  gate : Nat → GateResult
  /-- Transport outcome of attempt `i` with a given token. -/
  fetch : Nat → Token → FetchResult
  /-- `sessionStorage.getItem('selectedProxyServer')`. -/
  selectedProxy : Option String
  /-- `process.env.NODE_ENV === 'production'`. -/
  isProd : Bool

/-- JavaScript `a || b` on an optional string (empty string is falsy). -/
def jsOr (a : Option String) (b : String) : String :=
  match a with
  | some s => if s = "" then b else s
  | none => b

/-- JavaScript `s.slice(-6)`. -/
def sliceLast6 (s : String) : String :=
  s.drop (s.length - 6)

/-- `pat` starts the list `s`. -/
def beginsWith : List Char → List Char → Bool
  | _, [] => true
  | [], _ :: _ => false
  | c :: cs, p :: ps => c = p && beginsWith cs ps

def includesAux : List Char → List Char → Bool
  | [], pat => beginsWith [] pat
  | c :: rest, pat => beginsWith (c :: rest) pat || includesAux rest pat

/-- JavaScript `s.includes(pat)`. -/
def strIncludes (s pat : String) : Bool :=
  includesAux s.toList pat.toList

/-- `getVeoProxyUrl` of `apiClient.ts`. -/
def getVeoProxyUrl (selectedProxy : Option String) (isProd : Bool) : String :=
  match selectedProxy with
  | some p => p
  | none => if isProd then "https://veox.monoklix.com" else ""

/-- `getImagenProxyUrl` of `apiClient.ts`. -/
def getImagenProxyUrl (selectedProxy : Option String) (isProd : Bool) : String :=
  match selectedProxy with
  | some p => p
  | none => if isProd then "https://gemx.monoklix.com" else ""

/-- `getPersonalToken` of `apiClient.ts`: the personal credential always
carries the provenance tag `'personal'`. -/
def getPersonalToken (e : Env) : Option Token :=
  e.personalAuthToken.map (fun v => { token := v, createdAt := "personal" })

/-- JavaScript array destructuring swap `[l[i], l[j]] = [l[j], l[i]]`
(no-op when an index is out of range). -/
def swapL {α : Type} (l : List α) (i j : Nat) : List α :=
  match l[i]?, l[j]? with
  | some a, some b => (l.set i b).set j a
  | some _, none => l
  | none, _ => l

/-- The Fisher–Yates loop of `fetchWithTokenRotation` lines 129–132:
`for (let i = length-1; i > 0; i--) { j = floor(rand*(i+1)); swap i j }`,
recursing on the loop counter. -/
def fyDown {α : Type} (rand : Nat → Nat) : Nat → List α → List α
  | 0, l => l
  | i + 1, l => fyDown rand i (swapL l (i + 1) (rand (i + 1) % (i + 2)))

/-- Shuffle of the shared pool. -/
def fyShuffle {α : Type} (rand : Nat → Nat) (l : List α) : List α :=
  fyDown rand (l.length - 1) l

/-- `logContext.includes('GENERATE') || logContext.includes('RECIPE')`
(line 88 of `apiClient.ts`). -/
def isGenerationRequest (ctx : String) : Bool :=
  strIncludes ctx "GENERATE" || strIncludes ctx "RECIPE"

/-- Outcome of the admission-polling `while` loop. `fuelOut` marks a run
whose unbounded source loop has not decided within the given fuel. -/
inductive GateOutcome where
  | acquired
  | gateErr (msg : String)
  | fuelOut
deriving DecidableEq, Repr

/-- The `while (!slotAcquired)` polling loop (lines 96–114 of
`apiClient.ts`), with fuel standing in for the unbounded iteration. -/
def gateLoop (gate : Nat → GateResult) (serverUrl : String) (hasCb : Bool) :
    Nat → Nat → List Ev × GateOutcome
  | 0, _ => ([], GateOutcome.fuelOut)
  | fuel + 1, n =>
    match gate n with
    | GateResult.err m =>
      ([Ev.gateCall serverUrl (GateResult.err m)]
        ++ (if hasCb then [Ev.statusUpdate ""] else []), GateOutcome.gateErr m)
    | GateResult.ok true =>
      ([Ev.gateCall serverUrl (GateResult.ok true)], GateOutcome.acquired)
    | GateResult.ok false =>
      let r := gateLoop gate serverUrl hasCb fuel (n + 1)
      ([Ev.gateCall serverUrl (GateResult.ok false)]
        ++ (if hasCb then
              [Ev.statusUpdate "Mencuba semula untuk mendapatkan slot dalam 2 saat..."]
            else [])
        ++ [Ev.sleep 2000] ++ r.1, r.2)

/-- Candidate-list construction (lines 120–152 of `apiClient.ts`): an
explicit token short-circuits everything; otherwise the shared pool is
shuffled, a refill is attempted when the pool is empty, and the personal
token (if any) is put first. -/
def buildCandidates (e : Env) (specificToken : Option String) :
    List Ev × List Token :=
  match specificToken with
  | some s => ([], [{ token := s, createdAt := "N/A" }])
  | none =>
    let personalToken := getPersonalToken e
    let sharedTokens := fyShuffle e.rand e.shared
    let refilled : List Ev × List Token :=
      if sharedTokens.length = 0 then
        match e.refill with
        | Except.ok newTokens =>
          if newTokens.length > 0 then ([Ev.refillCall], newTokens)
          else ([Ev.refillCall], sharedTokens)
        | Except.error _ => ([Ev.refillCall], sharedTokens)
      else ([], sharedTokens)
    (refilled.1,
     (match personalToken with | some p => [p] | none => []) ++ refilled.2)

/-- Result of one attempt body (lines 170–191): a thrown transport/parse
error, a non-ok response turned into the `data.error?.message ||
data.message || 'API call failed (status)'` error, or the parsed body. -/
def fetchEval : FetchResult → Except String Body
  | FetchResult.thrown m => Except.error m
  | FetchResult.resp status ok body =>
    if ok then Except.ok body
    else Except.error (jsOr body.errorMessage
      (jsOr body.message s!"API call failed ({status})"))

/-- `i - (getPersonalToken() ? 1 : 0) + 1` of line 164, in JavaScript
(signed) arithmetic. -/
def sharedTokenNum (i : Nat) (personalPresent : Bool) : Int :=
  (i : Int) - (if personalPresent then 1 else 0) + 1

/-- The token identifier used in logs and status strings (line 164). -/
def tokenIdentifier (isPersonal : Bool) (i : Nat) (personalPresent : Bool) :
    String :=
  if isPersonal then "Personal Token"
  else
    let n := sharedTokenNum i personalPresent
    s!"Shared Token #{n}"

/-- The sequential attempt loop (lines 161–210 of `apiClient.ts`),
recursing over the remaining candidates with the running index and the
last observed error. The `[]` case is lines 208–210 (exhaustion). -/
def attemptLoop (fetch : Nat → Token → FetchResult) (ctx : String)
    (hasCb : Bool) (personalPresent : Bool) :
    List Token → Nat → Option String → List Ev × Except String (Body × String)
  | [], _, lastErr =>
    let lm := lastErr.getD "unreachable"
    ([Ev.log { model := ctx, prompt := "All available auth tokens failed.",
               output := "Final error: " ++ lm, status := "Error",
               error := some lm }],
     Except.error lm)
  | tok :: rest, i, _ =>
    let isPersonal := tok.createdAt = "personal"
    let tid := tokenIdentifier isPersonal i personalPresent
    let evs0 :=
      (if hasCb then [Ev.statusUpdate s!"Attempting generation with {tid}..."]
       else [])
      ++ [Ev.log { model := ctx, prompt := s!"Attempt with {tid}",
                   output := "..." ++ sliceLast6 tok.token,
                   status := "Success", error := none },
          Ev.attempt tok.token]
    match fetchEval (fetch i tok) with
    | Except.ok body => (evs0, Except.ok (body, tok.token))
    | Except.error m =>
      let evs1 :=
        [Ev.log { model := ctx, prompt := s!"{tid} failed", output := m,
                  status := "Error", error := some m }]
        ++ (if isPersonal then [Ev.bus "personalTokenFailed"] else [])
      let r := attemptLoop fetch ctx hasCb personalPresent rest (i + 1) (some m)
      (evs0 ++ evs1 ++ r.1, r.2)

/-- `fetchWithTokenRotation` of `apiClient.ts`. The result is `none` when
the unbounded admission loop has not decided within the fuel; otherwise
`some` of the returned `{ data, successfulToken }` or the thrown error. -/
def fetchWithTokenRotation (e : Env) (endpoint ctx : String)
    (specificToken : Option String) (hasCb : Bool) (fuel : Nat) :
    List Ev × Option (Except String (Body × String)) :=
  let gph : List Ev × Option (Option String) :=
    if isGenerationRequest ctx then
      let pre :=
        if hasCb then
          [Ev.statusUpdate "Semua slot sedang digunakan. Anda berada dalam barisan menunggu..."]
        else []
      let imagenProxyUrl := getImagenProxyUrl e.selectedProxy e.isProd
      let veoProxyUrl := getVeoProxyUrl e.selectedProxy e.isProd
      let serverUrl :=
        if endpoint.startsWith imagenProxyUrl then imagenProxyUrl
        else veoProxyUrl
      match gateLoop e.gate serverUrl hasCb fuel 0 with
      | (evs, GateOutcome.acquired) =>
        (pre ++ evs
          ++ (if hasCb then
                [Ev.statusUpdate "Slot berjaya diperoleh. Memulakan penjanaan..."]
              else []), some none)
      | (evs, GateOutcome.gateErr m) => (pre ++ evs, some (some m))
      | (evs, GateOutcome.fuelOut) => (pre ++ evs, none)
    else ([], some none)
  match gph with
  | (evs, none) => (evs, none)
  | (evs, some (some m)) =>
    (evs, some (Except.error
      s!"Database error while requesting a generation slot: {m}"))
  | (evs, some none) =>
    let bc := buildCandidates e specificToken
    if bc.2.length = 0 then
      (evs ++ bc.1, some (Except.error
        s!"Auth Token is required for {ctx}. Please set one in Settings."))
    else
      let al := attemptLoop e.fetch ctx hasCb e.personalAuthToken.isSome
        bc.2 0 none
      (evs ++ bc.1 ++ al.1, some al.2)

/-- Hard deadline of the direct invocation path, ms. -/
def DIRECT_TIMEOUT_MS : Nat := 15000

/-- The direct (rotation-bypassed) call body shared by
`generateVideoWithVeo3` (lines 73–101 of `veo3Service.ts`) and
`generateImageWithImagen`: the `AbortController` fires at the deadline,
turning an unfinished fetch into the fixed timeout error. -/
def directCall (delayMs : Nat) (r : FetchResult) : Except String Body :=
  if DIRECT_TIMEOUT_MS ≤ delayMs then
    Except.error "Request timed out after 15 seconds."
  else fetchEval r

/-- `generateVideoWithVeo3` of `veo3Service.ts`, reduced to its dispatch
behaviour: the direct branch when `config.authToken` is set, otherwise the
rotation path with context label `'VEO I2V'` / `'VEO T2V'`.
`directDelay`/`directRes` describe the transport on the direct branch. -/
def generateVideoWithVeo3 (e : Env) (authToken : Option String)
    (isImageToVideo : Bool) (directDelay : Nat) (directRes : FetchResult)
    (fuel : Nat) : List Ev × Option (Except String (Body × String)) :=
  let url := getVeoProxyUrl e.selectedProxy e.isProd ++ "/api/veo"
    ++ (if isImageToVideo then "/generate-i2v" else "/generate-t2v")
  match authToken with
  | some t =>
    ([Ev.attempt t],
     some (match directCall directDelay directRes with
           | Except.ok body => Except.ok (body, t)
           | Except.error m => Except.error m))
  | none =>
    fetchWithTokenRotation e url
      (if isImageToVideo then "VEO I2V" else "VEO T2V") none false fuel

/-- `generateImageWithImagen` of the Imagen service, reduced to its
dispatch behaviour: direct branch when `config.authToken` is set, otherwise
rotation with context label `'IMAGEN GENERATE'`. -/
def generateImageWithImagen (e : Env) (authToken : Option String)
    (directDelay : Nat) (directRes : FetchResult) (fuel : Nat) :
    List Ev × Option (Except String (Body × String)) :=
  let url := getImagenProxyUrl e.selectedProxy e.isProd
    ++ "/api/imagen/generate"
  match authToken with
  | some t =>
    ([Ev.attempt t],
     some (match directCall directDelay directRes with
           | Except.ok body => Except.ok (body, t)
           | Except.error m => Except.error m))
  | none =>
    fetchWithTokenRotation e url "IMAGEN GENERATE" none false fuel

/- Trace observations. -/

def isAttemptEv : Ev → Bool
  | Ev.attempt _ => true
  | _ => false

def isGateEv : Ev → Bool
  | Ev.gateCall _ _ => true
  | _ => false

def isLogEv : Ev → Bool
  | Ev.log _ => true
  | _ => false

def isBusEv : Ev → Bool
  | Ev.bus _ => true
  | _ => false

def isRefillEv : Ev → Bool
  | Ev.refillCall => true
  | _ => false

/-- Number of transport attempts in a trace. -/
def countAttempts (evs : List Ev) : Nat := (evs.filter isAttemptEv).length

/-- Number of admission-gate calls in a trace. -/
def countGate (evs : List Ev) : Nat := (evs.filter isGateEv).length

/-- Number of telemetry (`addLogEntry`) entries in a trace. -/
def countLogs (evs : List Ev) : Nat := (evs.filter isLogEv).length

/-- Number of notification-bus events in a trace. -/
def countBus (evs : List Ev) : Nat := (evs.filter isBusEv).length

/-- Number of refill (`getVeoAuthTokens`) calls in a trace. -/
def countRefill (evs : List Ev) : Nat := (evs.filter isRefillEv).length

/-- The sleep durations of a trace, in order. -/
def sleepsOf (evs : List Ev) : List Nat :=
  evs.filterMap fun ev =>
    match ev with
    | Ev.sleep n => some n
    | _ => none

/-- The token values attempted, in order. -/
def attemptTokens (evs : List Ev) : List String :=
  evs.filterMap fun ev =>
    match ev with
    | Ev.attempt v => some v
    | _ => none

/-- `true` when some transport attempt occurs in the trace before any
admission-gate call has returned `acquired = true`. -/
def attemptBeforeGrant : List Ev → Bool
  | [] => false
  | Ev.gateCall _ (GateResult.ok true) :: _ => false
  | Ev.attempt _ :: _ => true
  | _ :: rest => attemptBeforeGrant rest

/-- An attempt outcome is a failure. -/
def isErr : Except String Body → Bool
  | Except.error _ => true
  | Except.ok _ => false

/-- The message of a failed attempt outcome. -/
def errMsgOf : Except String Body → String
  | Except.error m => m
  | Except.ok _ => ""

theorem get_cons_set_perm {α : Type} :
    ∀ (xs : List α) (m : Nat) (h : m < xs.length) (x : α),
      List.Perm (xs.get ⟨m, h⟩ :: xs.set m x) (x :: xs)
  | y :: _, 0, _, _ => List.Perm.swap _ _ _
  | y :: ys, m + 1, h, x => by
    have hm : m < ys.length := Nat.lt_of_succ_lt_succ h
    have ih := get_cons_set_perm ys m hm x
    have h0 : (y :: ys).get ⟨m + 1, h⟩ :: (y :: ys).set (m + 1) x
        = ys.get ⟨m, hm⟩ :: y :: ys.set m x := by simp [List.set]
    rw [h0]
    exact ((List.Perm.swap y (ys.get ⟨m, hm⟩) (ys.set m x)).trans
      (List.Perm.cons y ih)).trans (List.Perm.swap x y ys)

theorem set_set_get_perm {α : Type} :
    ∀ (l : List α) (i j : Nat) (hi : i < l.length) (hj : j < l.length),
      List.Perm ((l.set i (l.get ⟨j, hj⟩)).set j (l.get ⟨i, hi⟩)) l
  | x :: xs, 0, 0, _, _ => by simp
  | x :: xs, 0, j + 1, hi, hj => by
    have hj' : j < xs.length := Nat.lt_of_succ_lt_succ hj
    have h1 : ((x :: xs).set 0 ((x :: xs).get ⟨j + 1, hj⟩)).set (j + 1)
        ((x :: xs).get ⟨0, hi⟩)
        = xs.get ⟨j, hj'⟩ :: xs.set j x := by simp [List.set]
    rw [h1]
    exact get_cons_set_perm xs j hj' x
  | x :: xs, i + 1, 0, hi, hj => by
    have hi' : i < xs.length := Nat.lt_of_succ_lt_succ hi
    have h1 : ((x :: xs).set (i + 1) ((x :: xs).get ⟨0, hj⟩)).set 0
        ((x :: xs).get ⟨i + 1, hi⟩)
        = xs.get ⟨i, hi'⟩ :: xs.set i x := by simp [List.set]
    rw [h1]
    exact get_cons_set_perm xs i hi' x
  | x :: xs, i + 1, j + 1, hi, hj => by
    have hi' : i < xs.length := Nat.lt_of_succ_lt_succ hi
    have hj' : j < xs.length := Nat.lt_of_succ_lt_succ hj
    have h1 : ((x :: xs).set (i + 1) ((x :: xs).get ⟨j + 1, hj⟩)).set (j + 1)
        ((x :: xs).get ⟨i + 1, hi⟩)
        = x :: (xs.set i (xs.get ⟨j, hj'⟩)).set j (xs.get ⟨i, hi'⟩) := by
      simp [List.set]
    rw [h1]
    exact List.Perm.cons _ (set_set_get_perm xs i j hi' hj')

theorem swapL_perm {α : Type} (l : List α) (i j : Nat) :
    List.Perm (swapL l i j) l := by
  unfold swapL
  cases hi : l[i]? with
  | none => exact List.Perm.refl l
  | some a =>
    cases hj : l[j]? with
    | none => exact List.Perm.refl l
    | some b =>
      have hi' : i < l.length := by
        by_contra h
        rw [List.getElem?_eq_none (Nat.le_of_not_lt h)] at hi
        exact Option.noConfusion hi
      have hj' : j < l.length := by
        by_contra h
        rw [List.getElem?_eq_none (Nat.le_of_not_lt h)] at hj
        exact Option.noConfusion hj
      have ha : a = l.get ⟨i, hi'⟩ := by
        rw [List.getElem?_eq_getElem hi'] at hi
        exact (Option.some.inj hi).symm
      have hb : b = l.get ⟨j, hj'⟩ := by
        rw [List.getElem?_eq_getElem hj'] at hj
        exact (Option.some.inj hj).symm
      rw [ha, hb]
      exact set_set_get_perm l i j hi' hj'

theorem fyDown_perm {α : Type} (rand : Nat → Nat) :
    ∀ (i : Nat) (l : List α), List.Perm (fyDown rand i l) l
  | 0, l => List.Perm.refl l
  | i + 1, l =>
    List.Perm.trans
      (fyDown_perm rand i (swapL l (i + 1) (rand (i + 1) % (i + 2))))
      (swapL_perm l (i + 1) (rand (i + 1) % (i + 2)))

/-- The shuffled shared pool is a permutation of the original pool. -/
theorem fyShuffle_perm {α : Type} (rand : Nat → Nat) (l : List α) :
    List.Perm (fyShuffle rand l) l :=
  fyDown_perm rand (l.length - 1) l

theorem countAttempts_append (a b : List Ev) :
    countAttempts (a ++ b) = countAttempts a + countAttempts b := by
  simp [countAttempts, List.filter_append]

theorem countGate_append (a b : List Ev) :
    countGate (a ++ b) = countGate a + countGate b := by
  simp [countGate, List.filter_append]

theorem countLogs_append (a b : List Ev) :
    countLogs (a ++ b) = countLogs a + countLogs b := by
  simp [countLogs, List.filter_append]

theorem countBus_append (a b : List Ev) :
    countBus (a ++ b) = countBus a + countBus b := by
  simp [countBus, List.filter_append]

theorem countRefill_append (a b : List Ev) :
    countRefill (a ++ b) = countRefill a + countRefill b := by
  simp [countRefill, List.filter_append]

theorem sleepsOf_append (a b : List Ev) :
    sleepsOf (a ++ b) = sleepsOf a ++ sleepsOf b := by
  simp [sleepsOf]

theorem countAttempts_nil : countAttempts [] = 0 := rfl

theorem countAttempts_cons (ev : Ev) (evs : List Ev) :
    countAttempts (ev :: evs)
      = (if isAttemptEv ev then 1 else 0) + countAttempts evs := by
  by_cases h : isAttemptEv ev <;>
    simp [countAttempts, List.filter_cons, h, Nat.add_comm]

theorem countGate_nil : countGate [] = 0 := rfl

theorem countGate_cons (ev : Ev) (evs : List Ev) :
    countGate (ev :: evs) = (if isGateEv ev then 1 else 0) + countGate evs := by
  by_cases h : isGateEv ev <;>
    simp [countGate, List.filter_cons, h, Nat.add_comm]

theorem countLogs_nil : countLogs [] = 0 := rfl

theorem countLogs_cons (ev : Ev) (evs : List Ev) :
    countLogs (ev :: evs) = (if isLogEv ev then 1 else 0) + countLogs evs := by
  by_cases h : isLogEv ev <;>
    simp [countLogs, List.filter_cons, h, Nat.add_comm]

theorem countBus_nil : countBus [] = 0 := rfl

theorem countBus_cons (ev : Ev) (evs : List Ev) :
    countBus (ev :: evs) = (if isBusEv ev then 1 else 0) + countBus evs := by
  by_cases h : isBusEv ev <;>
    simp [countBus, List.filter_cons, h, Nat.add_comm]

theorem countRefill_nil : countRefill [] = 0 := rfl

theorem countRefill_cons (ev : Ev) (evs : List Ev) :
    countRefill (ev :: evs)
      = (if isRefillEv ev then 1 else 0) + countRefill evs := by
  by_cases h : isRefillEv ev <;>
    simp [countRefill, List.filter_cons, h, Nat.add_comm]

theorem sleepsOf_nil : sleepsOf [] = [] := rfl

theorem sleepsOf_sleep_cons (n : Nat) (evs : List Ev) :
    sleepsOf (Ev.sleep n :: evs) = n :: sleepsOf evs := by
  simp [sleepsOf]

theorem sleepsOf_status_cons (s : String) (evs : List Ev) :
    sleepsOf (Ev.statusUpdate s :: evs) = sleepsOf evs := by
  simp [sleepsOf]

theorem sleepsOf_log_cons (e : LogEntry) (evs : List Ev) :
    sleepsOf (Ev.log e :: evs) = sleepsOf evs := by
  simp [sleepsOf]

theorem sleepsOf_attempt_cons (v : String) (evs : List Ev) :
    sleepsOf (Ev.attempt v :: evs) = sleepsOf evs := by
  simp [sleepsOf]

theorem sleepsOf_bus_cons (n : String) (evs : List Ev) :
    sleepsOf (Ev.bus n :: evs) = sleepsOf evs := by
  simp [sleepsOf]

theorem sleepsOf_gate_cons (s : String) (r : GateResult) (evs : List Ev) :
    sleepsOf (Ev.gateCall s r :: evs) = sleepsOf evs := by
  simp [sleepsOf]

theorem sleepsOf_refill_cons (evs : List Ev) :
    sleepsOf (Ev.refillCall :: evs) = sleepsOf evs := by
  simp [sleepsOf]

/-- The attempt loop performs no gate calls, no sleeps and no refills. -/
theorem attemptLoop_quiet (fetch : Nat → Token → FetchResult) (ctx : String)
    (cb pp : Bool) (toks : List Token) : ∀ (i : Nat) (le : Option String),
    countGate (attemptLoop fetch ctx cb pp toks i le).1 = 0
    ∧ sleepsOf (attemptLoop fetch ctx cb pp toks i le).1 = []
    ∧ countRefill (attemptLoop fetch ctx cb pp toks i le).1 = 0 := by
  induction toks with
  | nil =>
    intro i le
    simp [attemptLoop, countGate, sleepsOf, countRefill, isGateEv, isRefillEv]
  | cons tok rest ih =>
    intro i le
    simp only [attemptLoop]
    cases h : fetchEval (fetch i tok) with
    | ok body =>
      cases cb <;>
        simp [h, countGate, sleepsOf, countRefill, isGateEv, isRefillEv]
    | error m =>
      have hr := ih (i + 1) (some m)
      cases cb <;> by_cases hp : tok.createdAt = "personal" <;>
        simp [h, hp, countGate_append, sleepsOf_append, countRefill_append,
          countGate_cons, countGate_nil, countRefill_cons, countRefill_nil,
          sleepsOf_nil, sleepsOf_status_cons, sleepsOf_log_cons,
          sleepsOf_attempt_cons, sleepsOf_bus_cons, isGateEv, isRefillEv,
          hr.1, hr.2.1, hr.2.2]

/-- A loop over candidates none of which carries the `'personal'` tag never
publishes a notification-bus event, whatever the outcomes. -/
theorem attemptLoop_bus_zero (fetch : Nat → Token → FetchResult) (ctx : String)
    (cb pp : Bool) (toks : List Token)
    (hnp : ∀ t ∈ toks, t.createdAt ≠ "personal") : ∀ (i : Nat) (le : Option String),
    countBus (attemptLoop fetch ctx cb pp toks i le).1 = 0 := by
  induction toks with
  | nil =>
    intro i le
    simp [attemptLoop, countBus, isBusEv]
  | cons tok rest ih =>
    intro i le
    have htag : tok.createdAt ≠ "personal" := hnp tok (List.mem_cons_self tok rest)
    have hrest : ∀ t ∈ rest, t.createdAt ≠ "personal" :=
      fun t ht => hnp t (List.mem_cons_of_mem tok ht)
    simp only [attemptLoop]
    cases h : fetchEval (fetch i tok) with
    | ok body =>
      cases cb <;> simp [h, countBus, isBusEv]
    | error m =>
      have hr := ih hrest (i + 1) (some m)
      cases cb <;>
        simp [h, htag, countBus_append, countBus_cons, countBus_nil, isBusEv,
          hr]

/-- First-success behaviour of the attempt loop: the loop returns the body
and token of the first succeeding candidate and makes exactly one transport
call per candidate up to and including it. -/
theorem attemptLoop_first_success (fetch : Nat → Token → FetchResult)
    (ctx : String) (cb pp : Bool) (toks : List Token) :
    ∀ (i : Nat) (le : Option String) (k : Nat) (hk : k < toks.length)
      (body : Body),
    (∀ m (hm : m < k),
      isErr (fetchEval (fetch (i + m) (toks.get ⟨m, Nat.lt_trans hm hk⟩))) = true) →
    fetchEval (fetch (i + k) (toks.get ⟨k, hk⟩)) = Except.ok body →
    (attemptLoop fetch ctx cb pp toks i le).2
      = Except.ok (body, (toks.get ⟨k, hk⟩).token)
    ∧ countAttempts (attemptLoop fetch ctx cb pp toks i le).1 = k + 1 := by
  induction toks with
  | nil =>
    intro i le k hk
    exact absurd hk (by simp)
  | cons tok rest ih =>
    intro i le k hk body hfail hsucc
    cases k with
    | zero =>
      have hs : fetchEval (fetch i tok) = Except.ok body := by
        simpa using hsucc
      simp only [attemptLoop]
      cases cb <;>
        simp [hs, countAttempts, isAttemptEv, List.get]
    | succ k' =>
      have h0 : isErr (fetchEval (fetch i tok)) = true := by
        simpa using hfail 0 (Nat.succ_pos k')
      obtain ⟨m, hm⟩ : ∃ m, fetchEval (fetch i tok) = Except.error m := by
        cases he : fetchEval (fetch i tok) with
        | ok b => rw [he] at h0; exact absurd h0 (by simp [isErr])
        | error m => exact ⟨m, rfl⟩
      have hk' : k' < rest.length := Nat.lt_of_succ_lt_succ hk
      have hfail' : ∀ m' (hm' : m' < k'),
          isErr (fetchEval (fetch (i + 1 + m')
            (rest.get ⟨m', Nat.lt_trans hm' hk'⟩))) = true := by
        intro m' hm'
        have := hfail (m' + 1) (Nat.succ_lt_succ hm')
        simpa [Nat.add_comm, Nat.add_assoc, Nat.add_left_comm] using this
      have hsucc' : fetchEval (fetch (i + 1 + k') (rest.get ⟨k', hk'⟩))
          = Except.ok body := by
        have := hsucc
        simpa [Nat.add_comm, Nat.add_assoc, Nat.add_left_comm] using this
      have hr := ih (i + 1) (some m) k' hk' body hfail' hsucc'
      simp only [attemptLoop]
      cases cb <;> by_cases hp : tok.createdAt = "personal" <;>
        simp [hm, hp, countAttempts_append, countAttempts_cons,
          countAttempts_nil, isAttemptEv, hr.1, hr.2, List.get] <;>
        omega

/-- Exhaustion behaviour of the attempt loop: when every candidate fails,
the loop throws the last candidate's error, makes one transport call per
candidate, records two telemetry entries per candidate plus the final
aggregate entry, and publishes one bus event per failing candidate tagged
`'personal'`. -/
theorem attemptLoop_all_fail (fetch : Nat → Token → FetchResult)
    (ctx : String) (cb pp : Bool) : ∀ (toks : List Token) (i : Nat)
    (le : Option String) (hne : toks ≠ []),
    (∀ m (hm : m < toks.length),
      isErr (fetchEval (fetch (i + m) (toks.get ⟨m, hm⟩))) = true) →
    (attemptLoop fetch ctx cb pp toks i le).2
      = Except.error (errMsgOf (fetchEval
          (fetch (i + toks.length - 1) (toks.getLast hne))))
    ∧ countAttempts (attemptLoop fetch ctx cb pp toks i le).1 = toks.length
    ∧ countLogs (attemptLoop fetch ctx cb pp toks i le).1
        = 2 * toks.length + 1
    ∧ countBus (attemptLoop fetch ctx cb pp toks i le).1
        = (toks.filter (fun t => t.createdAt == "personal")).length := by
  intro toks
  induction toks with
  | nil => intro i le hne; exact absurd rfl hne
  | cons tok rest ih =>
    intro i le hne hfail
    have h0 : isErr (fetchEval (fetch i tok)) = true := by
      simpa using hfail 0 (by simp)
    obtain ⟨m, hm⟩ : ∃ m, fetchEval (fetch i tok) = Except.error m := by
      cases he : fetchEval (fetch i tok) with
      | ok b => rw [he] at h0; exact absurd h0 (by simp [isErr])
      | error mm => exact ⟨mm, rfl⟩
    by_cases hrest : rest = []
    · subst hrest
      simp only [attemptLoop]
      cases cb <;> by_cases hp : tok.createdAt = "personal" <;>
        simp [hm, hp, errMsgOf, countAttempts_append, countAttempts_cons,
          countAttempts_nil, countLogs_append, countLogs_cons, countLogs_nil,
          countBus_append, countBus_cons, countBus_nil, isAttemptEv, isLogEv,
          isBusEv, List.getLast, List.filter_cons, beq_iff_eq]
    · have hfail' : ∀ m' (hm' : m' < rest.length),
          isErr (fetchEval (fetch (i + 1 + m') (rest.get ⟨m', hm'⟩))) = true := by
        intro m' hm'
        have := hfail (m' + 1) (Nat.succ_lt_succ hm')
        simpa [Nat.add_comm, Nat.add_assoc, Nat.add_left_comm] using this
      have hr := ih (i + 1) (some m) hrest hfail'
      have hidx : i + 1 + rest.length - 1 = i + (rest.length + 1) - 1 := by
        omega
      rw [hidx] at hr
      have hlast : (tok :: rest).getLast hne = rest.getLast hrest :=
        List.getLast_cons hrest
      simp only [attemptLoop]
      cases cb <;> by_cases hp : tok.createdAt = "personal" <;>
        simp [hm, hp, countAttempts_append, countAttempts_cons,
          countAttempts_nil, countLogs_append, countLogs_cons, countLogs_nil,
          countBus_append, countBus_cons, countBus_nil, isAttemptEv, isLogEv,
          isBusEv, hr.1, hr.2.1, hr.2.2.1, hr.2.2.2, hlast, List.filter_cons,
          beq_iff_eq] <;>
        omega

/-- The admission loop with `k` denials followed by a grant: the trace is
`k` denied polls, each followed by a 2000 ms sleep, then the granting call;
no transport attempt, telemetry entry or bus event occurs in it. -/
theorem gateLoop_grants (gate : Nat → GateResult) (s : String) (cb : Bool) :
    ∀ (k fuel n : Nat), (∀ m, m < k → gate (n + m) = GateResult.ok false) →
    gate (n + k) = GateResult.ok true → k < fuel →
    ∃ devs,
      gateLoop gate s cb fuel n
        = (devs ++ [Ev.gateCall s (GateResult.ok true)], GateOutcome.acquired)
      ∧ countAttempts devs = 0 ∧ countGate devs = k
      ∧ sleepsOf devs = List.replicate k 2000
      ∧ countLogs devs = 0 ∧ countBus devs = 0 ∧ countRefill devs = 0 := by
  intro k
  induction k with
  | zero =>
    intro fuel n hden hgrant hfuel
    obtain ⟨f, rfl⟩ : ∃ f, fuel = f + 1 := ⟨fuel - 1, by omega⟩
    have hg : gate n = GateResult.ok true := by simpa using hgrant
    refine ⟨[], ?_, rfl, rfl, rfl, rfl, rfl, rfl⟩
    simp [gateLoop, hg]
  | succ k ih =>
    intro fuel n hden hgrant hfuel
    obtain ⟨f, rfl⟩ : ∃ f, fuel = f + 1 := ⟨fuel - 1, by omega⟩
    have h0 : gate n = GateResult.ok false := by
      simpa using hden 0 (Nat.succ_pos k)
    have hden' : ∀ m, m < k → gate (n + 1 + m) = GateResult.ok false := by
      intro m hmk
      have := hden (m + 1) (Nat.succ_lt_succ hmk)
      simpa [Nat.add_comm, Nat.add_assoc, Nat.add_left_comm] using this
    have hgrant' : gate (n + 1 + k) = GateResult.ok true := by
      simpa [Nat.add_comm, Nat.add_assoc, Nat.add_left_comm] using hgrant
    obtain ⟨devs, hEq, h1, h2, h3, h4, h5, h6⟩ :=
      ih f (n + 1) hden' hgrant' (Nat.lt_of_succ_lt_succ hfuel)
    refine ⟨[Ev.gateCall s (GateResult.ok false)]
      ++ (if cb then
            [Ev.statusUpdate "Mencuba semula untuk mendapatkan slot dalam 2 saat..."]
          else [])
      ++ [Ev.sleep 2000] ++ devs, ?_, ?_, ?_, ?_, ?_, ?_, ?_⟩ <;>
      cases cb <;>
      simp [gateLoop, h0, hEq, h1, h2, h3, h4, h5, h6, countAttempts_append,
        countAttempts_cons, countAttempts_nil, countGate_append,
        countGate_cons, countGate_nil, countLogs_append, countLogs_cons,
        countLogs_nil, countBus_append, countBus_cons, countBus_nil,
        countRefill_append, countRefill_cons, countRefill_nil,
        sleepsOf_append, sleepsOf_sleep_cons, sleepsOf_status_cons,
        sleepsOf_gate_cons, sleepsOf_nil, isAttemptEv, isGateEv, isLogEv,
        isBusEv, isRefillEv, List.replicate_succ] <;>
      try omega

/-- The admission loop when the first poll itself errors. -/
theorem gateLoop_err_first (gate : Nat → GateResult) (s : String) (cb : Bool)
    (f : Nat) (m : String) (h : gate 0 = GateResult.err m) :
    gateLoop gate s cb (f + 1) 0
      = ([Ev.gateCall s (GateResult.err m)]
          ++ (if cb then [Ev.statusUpdate ""] else []),
         GateOutcome.gateErr m) := by
  simp [gateLoop, h]

/-- When the first gate poll grants (or no gating applies), a dispatch is
the admission-phase trace followed by candidate construction and the
attempt loop; the admission phase contributes no attempts, telemetry
entries, bus events or refills. -/
theorem dispatch_gate_ok (e : Env) (endpoint ctx : String)
    (spec : Option String) (cb : Bool) (f : Nat)
    (hg : e.gate 0 = GateResult.ok true) :
    ∃ gevs : List Ev,
      fetchWithTokenRotation e endpoint ctx spec cb (f + 1)
        = (gevs ++ (buildCandidates e spec).1
            ++ (if (buildCandidates e spec).2.length = 0 then []
                else (attemptLoop e.fetch ctx cb e.personalAuthToken.isSome
                  (buildCandidates e spec).2 0 none).1),
           if (buildCandidates e spec).2.length = 0 then
             some (Except.error
               s!"Auth Token is required for {ctx}. Please set one in Settings.")
           else some (attemptLoop e.fetch ctx cb e.personalAuthToken.isSome
             (buildCandidates e spec).2 0 none).2)
      ∧ countAttempts gevs = 0 ∧ countLogs gevs = 0 ∧ countBus gevs = 0
      ∧ countRefill gevs = 0 ∧ sleepsOf gevs = [] := by
  by_cases hgen : isGenerationRequest ctx
  · refine ⟨(if cb then
        [Ev.statusUpdate "Semua slot sedang digunakan. Anda berada dalam barisan menunggu..."]
      else [])
      ++ [Ev.gateCall
            (if endpoint.startsWith (getImagenProxyUrl e.selectedProxy e.isProd)
             then getImagenProxyUrl e.selectedProxy e.isProd
             else getVeoProxyUrl e.selectedProxy e.isProd)
            (GateResult.ok true)]
      ++ (if cb then
            [Ev.statusUpdate "Slot berjaya diperoleh. Memulakan penjanaan..."]
          else []), ?_, ?_, ?_, ?_, ?_, ?_⟩ <;>
    · by_cases hlen : (buildCandidates e spec).2.length = 0 <;>
        cases cb <;>
        simp [fetchWithTokenRotation, hgen, gateLoop, hg, hlen,
          countAttempts_append, countAttempts_cons, countAttempts_nil,
          countLogs_append, countLogs_cons, countLogs_nil, countBus_append,
          countBus_cons, countBus_nil, countRefill_append, countRefill_cons,
          countRefill_nil, sleepsOf_append, sleepsOf_status_cons,
          sleepsOf_gate_cons, sleepsOf_nil, isAttemptEv, isLogEv, isBusEv,
          isRefillEv]
  · refine ⟨[], ?_, rfl, rfl, rfl, rfl, rfl⟩
    by_cases hlen : (buildCandidates e spec).2.length = 0 <;>
      simp [fetchWithTokenRotation, hgen, hlen]

/-- Decomposition of the candidate list built without an explicit token:
the personal token (if any) first, then a permutation of the shared pool
(or of the refill result when the pool was empty); the refill RPC is called
exactly when the pool is empty. -/
theorem buildCandidates_split (e : Env) :
    ∃ sharedPart : List Token,
      (buildCandidates e none).2 = (getPersonalToken e).toList ++ sharedPart
      ∧ countRefill (buildCandidates e none).1
          = (if e.shared.length = 0 then 1 else 0)
      ∧ (0 < e.shared.length → List.Perm sharedPart e.shared)
      ∧ (e.shared.length = 0 →
          ∀ l, e.refill = Except.ok l → List.Perm sharedPart l)
      ∧ (e.shared.length = 0 →
          ∀ m, e.refill = Except.error m → sharedPart = []) := by
  by_cases hsh : e.shared.length = 0
  · have hempty : e.shared = [] := List.length_eq_zero.mp hsh
    cases hr : e.refill with
    | ok l =>
      by_cases hl : l.length > 0
      · have hbc : buildCandidates e none
            = ([Ev.refillCall], (getPersonalToken e).toList ++ l) := by
          cases hp : e.personalAuthToken <;>
            simp [buildCandidates, getPersonalToken, fyShuffle, fyDown,
              hempty, hr, hl, hp]
        refine ⟨l, by rw [hbc], ?_, ?_, ?_, ?_⟩
        · rw [hbc]
          simp [countRefill_cons, countRefill_nil, isRefillEv, hsh]
        · intro hcon; omega
        · intro _ l' hl'
          obtain rfl := Except.ok.inj hl'
          exact List.Perm.refl l
        · intro _ m' hm'
          exact Except.noConfusion hm'
      · have hl0 : l = [] := List.length_eq_zero.mp (by omega)
        subst hl0
        have hbc : buildCandidates e none
            = ([Ev.refillCall], (getPersonalToken e).toList ++ []) := by
          cases hp : e.personalAuthToken <;>
            simp [buildCandidates, getPersonalToken, fyShuffle, fyDown,
              hempty, hr, hp]
        refine ⟨[], by rw [hbc], ?_, ?_, ?_, ?_⟩
        · rw [hbc]
          simp [countRefill_cons, countRefill_nil, isRefillEv, hsh]
        · intro hcon; omega
        · intro _ l' hl'
          obtain rfl := Except.ok.inj hl'
          exact List.Perm.refl []
        · intro _ m' hm'
          exact Except.noConfusion hm'
    | error m =>
      have hbc : buildCandidates e none
          = ([Ev.refillCall], (getPersonalToken e).toList ++ []) := by
        cases hp : e.personalAuthToken <;>
          simp [buildCandidates, getPersonalToken, fyShuffle, fyDown,
            hempty, hr, hp]
      refine ⟨[], by rw [hbc], ?_, ?_, ?_, ?_⟩
      · rw [hbc]
        simp [countRefill_cons, countRefill_nil, isRefillEv, hsh]
      · intro hcon; omega
      · intro _ l' hl'
        exact Except.noConfusion hl'
      · intro _ m' hm'; rfl
  · have hlen : (fyShuffle e.rand e.shared).length = e.shared.length :=
      (fyShuffle_perm e.rand e.shared).length_eq
    have hbc : buildCandidates e none
        = ([], (getPersonalToken e).toList ++ fyShuffle e.rand e.shared) := by
      cases hp : e.personalAuthToken <;>
        simp [buildCandidates, getPersonalToken, hp, hlen, hsh]
    refine ⟨fyShuffle e.rand e.shared, by rw [hbc], ?_, ?_, ?_, ?_⟩
    · rw [hbc]
      simp [countRefill_nil, hsh]
    · intro _; exact fyShuffle_perm e.rand e.shared
    · intro hcon; exact absurd hcon hsh
    · intro hcon; exact absurd hcon hsh

/-- A scan that reaches a granting gate call without passing a transport
attempt reports no attempt-before-grant. -/
theorem attemptBeforeGrant_of_grant (evs1 : List Ev) (s : String)
    (evs2 : List Ev) (h : countAttempts evs1 = 0) :
    attemptBeforeGrant
      (evs1 ++ Ev.gateCall s (GateResult.ok true) :: evs2) = false := by
  induction evs1 with
  | nil => simp [attemptBeforeGrant]
  | cons ev rest ih =>
    have hev : isAttemptEv ev = false := by
      by_cases hh : isAttemptEv ev
      · rw [countAttempts_cons, hh] at h; simp at h
      · simpa using hh
    have hrest : countAttempts rest = 0 := by
      rw [countAttempts_cons, hev] at h; simpa using h
    cases ev with
    | gateCall s' r =>
      cases r with
      | err m => simpa [attemptBeforeGrant] using ih hrest
      | ok b =>
        cases b with
        | true => simp [attemptBeforeGrant]
        | false => simpa [attemptBeforeGrant] using ih hrest
    | attempt v => simp [isAttemptEv] at hev
    | sleep n => simpa [attemptBeforeGrant] using ih hrest
    | statusUpdate s' => simpa [attemptBeforeGrant] using ih hrest
    | log le => simpa [attemptBeforeGrant] using ih hrest
    | refillCall => simpa [attemptBeforeGrant] using ih hrest
    | bus n => simpa [attemptBeforeGrant] using ih hrest

/-- Candidate construction emits at most the single refill event. -/
theorem buildCandidates_evs (e : Env) (spec : Option String) :
    (buildCandidates e spec).1 = []
    ∨ (buildCandidates e spec).1 = [Ev.refillCall] := by
  cases spec with
  | some s => left; rfl
  | none =>
    by_cases hsh : (fyShuffle e.rand e.shared).length = 0
    · cases hr : e.refill with
      | ok l =>
        by_cases hl : l.length > 0 <;> right <;>
          simp [buildCandidates, hsh, hr, hl]
      | error m => right; simp [buildCandidates, hsh, hr]
    · left; simp [buildCandidates, hsh]

/-- Candidate construction performs no transport attempt, telemetry entry,
bus event, gate call or sleep. -/
theorem buildCandidates_quiet (e : Env) (spec : Option String) :
    countAttempts (buildCandidates e spec).1 = 0
    ∧ countLogs (buildCandidates e spec).1 = 0
    ∧ countBus (buildCandidates e spec).1 = 0
    ∧ countGate (buildCandidates e spec).1 = 0
    ∧ sleepsOf (buildCandidates e spec).1 = [] := by
  rcases buildCandidates_evs e spec with h | h <;> rw [h] <;>
    exact ⟨rfl, rfl, rfl, rfl, rfl⟩

/-- Claim C1: for every dispatch whose candidate list is non-empty, with
the admission gate granting at once, `fetchWithTokenRotation` returns the
parsed body and credential value of the first candidate whose attempt
evaluates to a structural success, and the number of transport attempts is
exactly the index of that candidate plus one — no later candidate is
tried. -/
theorem monoklix_C1_first_success (e : Env) (endpoint ctx : String)
    (spec : Option String) (cb : Bool) (f : Nat)
    (hg : e.gate 0 = GateResult.ok true) (k : Nat)
    (hk : k < (buildCandidates e spec).2.length) (body : Body)
    (hfail : ∀ m (hm : m < k),
      isErr (fetchEval (e.fetch m
        ((buildCandidates e spec).2.get ⟨m, Nat.lt_trans hm hk⟩))) = true)
    (hsucc : fetchEval (e.fetch k ((buildCandidates e spec).2.get ⟨k, hk⟩))
      = Except.ok body) :
    (fetchWithTokenRotation e endpoint ctx spec cb (f + 1)).2
      = some (Except.ok (body, ((buildCandidates e spec).2.get ⟨k, hk⟩).token))
    ∧ countAttempts (fetchWithTokenRotation e endpoint ctx spec cb (f + 1)).1
        = k + 1 := by
  obtain ⟨gevs, hEq, hA, hL, hB, hR, hS⟩ :=
    dispatch_gate_ok e endpoint ctx spec cb f hg
  have hlen : ¬ (buildCandidates e spec).2.length = 0 := by omega
  have hloop := attemptLoop_first_success e.fetch ctx cb
    e.personalAuthToken.isSome (buildCandidates e spec).2 0 none k hk body
    (by intro m hm; simpa [Nat.zero_add] using hfail m hm)
    (by simpa [Nat.zero_add] using hsucc)
  rw [hEq]
  constructor
  · simp [hlen, hloop.1]
  · simp [hlen, countAttempts_append, hA, (buildCandidates_quiet e spec).1,
      hloop.2]

def envW1 : Env := {
  personalAuthToken := none,
  shared := [{ token := "a", createdAt := "c" }],
  refill := Except.ok [],
  rand := fun _ => 0,
  gate := fun _ => GateResult.ok true,
  fetch := fun _ _ =>
    FetchResult.resp 200 true { errorMessage := none, message := none,
                                payload := "pay" },
  selectedProxy := none,
  isProd := false }

/-- Witness for C1 at a concrete environment: one candidate, success at
index 0, one attempt. -/
theorem monoklix_C1_witness :
    (fetchWithTokenRotation envW1 "u" "IMAGEN GENERATE" none false 1).2
      = some (Except.ok ({ errorMessage := none, message := none,
                           payload := "pay" }, "a"))
    ∧ countAttempts
        (fetchWithTokenRotation envW1 "u" "IMAGEN GENERATE" none false 1).1
      = 1 := by
  have h := monoklix_C1_first_success envW1 "u" "IMAGEN GENERATE" none false 0
    rfl 0 (by decide)
    { errorMessage := none, message := none, payload := "pay" }
    (fun m hm => absurd hm (Nat.not_lt_zero m)) rfl
  exact ⟨h.1, h.2⟩

/-- Counterexample to claim C2 as stated: with a single failing explicit
candidate (`N = 1`), the telemetry sink receives three entries (one
attempt-start entry, one per-attempt failure entry, one final aggregate
entry), not `N + 1 = 2`. -/
def envC2 : Env := {
  personalAuthToken := none,
  shared := [],
  refill := Except.ok [],
  rand := fun _ => 0,
  gate := fun _ => GateResult.ok true,
  fetch := fun _ _ => FetchResult.thrown "boom",
  selectedProxy := none,
  isProd := false }

theorem monoklix_C2_counterexample :
    countLogs (fetchWithTokenRotation envC2 "u" "VEO STATUS" (some "t")
        false 1).1 = 3
    ∧ (fetchWithTokenRotation envC2 "u" "VEO STATUS" (some "t") false 1).2
        = some (Except.error "boom")
    ∧ countLogs (fetchWithTokenRotation envC2 "u" "VEO STATUS" (some "t")
        false 1).1 ≠ 1 + 1 := by
  refine ⟨rfl, rfl, by decide⟩

/-- Claim C2 as amended: for every all-failing candidate list of length
`N ≥ 1`, dispatch throws exactly the error observed on the last candidate,
and the telemetry sink receives `2N + 1` entries for the call — one
attempt-start entry and one failure entry per attempt, plus one final
aggregate entry (not `N + 1`). -/
theorem monoklix_C2_amended (e : Env) (endpoint ctx : String)
    (spec : Option String) (cb : Bool) (f : Nat)
    (hg : e.gate 0 = GateResult.ok true)
    (hne : (buildCandidates e spec).2 ≠ [])
    (hfail : ∀ m (hm : m < (buildCandidates e spec).2.length),
      isErr (fetchEval (e.fetch m
        ((buildCandidates e spec).2.get ⟨m, hm⟩))) = true) :
    (fetchWithTokenRotation e endpoint ctx spec cb (f + 1)).2
      = some (Except.error (errMsgOf (fetchEval
          (e.fetch ((buildCandidates e spec).2.length - 1)
            ((buildCandidates e spec).2.getLast hne)))))
    ∧ countLogs (fetchWithTokenRotation e endpoint ctx spec cb (f + 1)).1
        = 2 * (buildCandidates e spec).2.length + 1
    ∧ countAttempts
        (fetchWithTokenRotation e endpoint ctx spec cb (f + 1)).1
        = (buildCandidates e spec).2.length := by
  obtain ⟨gevs, hEq, hA, hL, hB, hR, hS⟩ :=
    dispatch_gate_ok e endpoint ctx spec cb f hg
  have hpos : 0 < (buildCandidates e spec).2.length := List.length_pos.mpr hne
  have hlen : ¬ (buildCandidates e spec).2.length = 0 := by omega
  have hloop := attemptLoop_all_fail e.fetch ctx cb
    e.personalAuthToken.isSome (buildCandidates e spec).2 0 none hne
    (by intro m hm; simpa [Nat.zero_add] using hfail m hm)
  have hidx : 0 + (buildCandidates e spec).2.length - 1
      = (buildCandidates e spec).2.length - 1 := by omega
  rw [hidx] at hloop
  rw [hEq]
  refine ⟨?_, ?_, ?_⟩
  · simp [hlen, hloop.1]
  · simp [hlen, countLogs_append, hL, (buildCandidates_quiet e spec).2.1,
      hloop.2.2.1]
  · simp [hlen, countAttempts_append, hA, (buildCandidates_quiet e spec).1,
      hloop.2.1]

def envW2 : Env := {
  personalAuthToken := some "p",
  shared := [{ token := "s1", createdAt := "2024" }],
  refill := Except.ok [],
  rand := fun _ => 0,
  gate := fun _ => GateResult.ok true,
  fetch := fun i _ => FetchResult.thrown (if i = 0 then "boom1" else "boom2"),
  selectedProxy := none,
  isProd := false }

/-- Witness for the amended C2 at a concrete environment with `N = 2`
all-failing candidates: the thrown error is the second (last) candidate's
`"boom2"` and five telemetry entries are recorded. -/
theorem monoklix_C2_witness :
    (fetchWithTokenRotation envW2 "u" "VEO T2V" none false 1).2
      = some (Except.error "boom2")
    ∧ countLogs (fetchWithTokenRotation envW2 "u" "VEO T2V" none false 1).1
        = 5
    ∧ countAttempts
        (fetchWithTokenRotation envW2 "u" "VEO T2V" none false 1).1 = 2 := by
  have h := monoklix_C2_amended envW2 "u" "VEO T2V" none false 0 rfl
    (by decide) (by decide)
  exact ⟨h.1, h.2.1, h.2.2⟩

/-- Decomposition of a gated dispatch whose gate denies `k` times and then
grants: the trace is an attempt-free, gate-and-sleep-recording prefix, the
granting gate call, and a remainder with no further gate calls or
sleeps. -/
theorem dispatch_polls (e : Env) (endpoint ctx : String)
    (spec : Option String) (cb : Bool) (fuel k : Nat)
    (hgen : isGenerationRequest ctx = true)
    (hden : ∀ m, m < k → e.gate m = GateResult.ok false)
    (hgrant : e.gate k = GateResult.ok true) (hfuel : k < fuel) :
    ∃ devs rest,
      (fetchWithTokenRotation e endpoint ctx spec cb fuel).1
        = devs ++ Ev.gateCall
            (if endpoint.startsWith (getImagenProxyUrl e.selectedProxy e.isProd)
             then getImagenProxyUrl e.selectedProxy e.isProd
             else getVeoProxyUrl e.selectedProxy e.isProd)
            (GateResult.ok true) :: rest
      ∧ countAttempts devs = 0 ∧ countGate devs = k
      ∧ sleepsOf devs = List.replicate k 2000
      ∧ countGate rest = 0 ∧ sleepsOf rest = [] := by
  obtain ⟨gdevs, hEq, hA, hG, hSl, hL, hB, hR⟩ :=
    gateLoop_grants e.gate
      (if endpoint.startsWith (getImagenProxyUrl e.selectedProxy e.isProd)
       then getImagenProxyUrl e.selectedProxy e.isProd
       else getVeoProxyUrl e.selectedProxy e.isProd) cb k fuel 0
      (by intro m hm; simpa [Nat.zero_add] using hden m hm)
      (by simpa [Nat.zero_add] using hgrant) hfuel
  refine ⟨(if cb then
      [Ev.statusUpdate "Semua slot sedang digunakan. Anda berada dalam barisan menunggu..."]
    else []) ++ gdevs,
    (if cb then
      [Ev.statusUpdate "Slot berjaya diperoleh. Memulakan penjanaan..."]
    else [])
    ++ (buildCandidates e spec).1
    ++ (if (buildCandidates e spec).2.length = 0 then []
        else (attemptLoop e.fetch ctx cb e.personalAuthToken.isSome
          (buildCandidates e spec).2 0 none).1), ?_, ?_, ?_, ?_, ?_, ?_⟩
  · by_cases hlen : (buildCandidates e spec).2.length = 0 <;>
      cases cb <;>
      simp [fetchWithTokenRotation, hgen, hEq, hlen]
  · cases cb <;>
      simp [countAttempts_append, countAttempts_cons, countAttempts_nil,
        isAttemptEv, hA]
  · cases cb <;>
      simp [countGate_append, countGate_cons, countGate_nil, isGateEv, hG]
  · cases cb <;>
      simp [sleepsOf_append, sleepsOf_status_cons, sleepsOf_nil, hSl]
  · by_cases hlen : (buildCandidates e spec).2.length = 0 <;>
      cases cb <;>
      simp [hlen, countGate_append, countGate_cons, countGate_nil, isGateEv,
        (buildCandidates_quiet e spec).2.2.2.1,
        (attemptLoop_quiet e.fetch ctx _ e.personalAuthToken.isSome
          (buildCandidates e spec).2 0 none).1]
  · by_cases hlen : (buildCandidates e spec).2.length = 0 <;>
      cases cb <;>
      simp [hlen, sleepsOf_append, sleepsOf_status_cons, sleepsOf_nil,
        (buildCandidates_quiet e spec).2.2.2.2,
        (attemptLoop_quiet e.fetch ctx _ e.personalAuthToken.isSome
          (buildCandidates e spec).2 0 none).2.1]

/-- Counterexample to claim C3 as stated: the Veo text-to-video generation
call (context label `'VEO T2V'`, which contains neither `'GENERATE'` nor
`'RECIPE'`) performs its credential attempt without a single admission-gate
call, even against a gate that never grants a slot. -/
def envC3 : Env := {
  personalAuthToken := some "p",
  shared := [],
  refill := Except.ok [],
  rand := fun _ => 0,
  gate := fun _ => GateResult.ok false,
  fetch := fun _ _ =>
    FetchResult.resp 200 true { errorMessage := none, message := none,
                                payload := "ops" },
  selectedProxy := none,
  isProd := false }

theorem monoklix_C3_counterexample :
    (∀ n, envC3.gate n = GateResult.ok false)
    ∧ countGate (generateVideoWithVeo3 envC3 none false 0
        (FetchResult.thrown "x") 999).1 = 0
    ∧ countAttempts (generateVideoWithVeo3 envC3 none false 0
        (FetchResult.thrown "x") 999).1 = 1
    ∧ attemptBeforeGrant (generateVideoWithVeo3 envC3 none false 0
        (FetchResult.thrown "x") 999).1 = true := by
  exact ⟨fun n => rfl, rfl, rfl, rfl⟩

/-- Claim C3 as amended: a dispatch is admission-gated exactly when its
context label contains `'GENERATE'` or `'RECIPE'` — the Veo T2V/I2V labels
do not match and bypass the gate. For every gated dispatch against a gate
that denies `k` times before granting, no credential attempt occurs before
the gate has returned `acquired = true`, the gate is polled exactly `k + 1`
times with a 2000 ms wait after each denial, and `k` is unbounded. -/
theorem monoklix_C3_amended (e : Env) (endpoint ctx : String)
    (spec : Option String) (cb : Bool) (fuel k : Nat)
    (hgen : isGenerationRequest ctx = true)
    (hden : ∀ m, m < k → e.gate m = GateResult.ok false)
    (hgrant : e.gate k = GateResult.ok true) (hfuel : k < fuel) :
    attemptBeforeGrant (fetchWithTokenRotation e endpoint ctx spec cb fuel).1
      = false
    ∧ countGate (fetchWithTokenRotation e endpoint ctx spec cb fuel).1
        = k + 1
    ∧ sleepsOf (fetchWithTokenRotation e endpoint ctx spec cb fuel).1
        = List.replicate k 2000 := by
  obtain ⟨devs, rest, hEq, hA, hG, hSl, hGr, hSr⟩ :=
    dispatch_polls e endpoint ctx spec cb fuel k hgen hden hgrant hfuel
  rw [hEq]
  refine ⟨attemptBeforeGrant_of_grant devs _ rest hA, ?_, ?_⟩
  · rw [countGate_append, countGate_cons]
    simp [isGateEv, hG, hGr]
  · rw [sleepsOf_append, sleepsOf_gate_cons]
    simp [hSl, hSr]

def envW3 : Env := {
  personalAuthToken := some "p",
  shared := [],
  refill := Except.ok [],
  rand := fun _ => 0,
  gate := fun n => GateResult.ok (decide (2 ≤ n)),
  fetch := fun _ _ => FetchResult.thrown "bad",
  selectedProxy := none,
  isProd := false }

/-- Witness for the amended C3 at a concrete environment: the gate denies
twice and grants on the third poll of an `'IMAGEN GENERATE'` dispatch. -/
theorem monoklix_C3_witness :
    attemptBeforeGrant
      (fetchWithTokenRotation envW3 "u" "IMAGEN GENERATE" none false 3).1
      = false
    ∧ countGate
        (fetchWithTokenRotation envW3 "u" "IMAGEN GENERATE" none false 3).1
        = 3
    ∧ sleepsOf
        (fetchWithTokenRotation envW3 "u" "IMAGEN GENERATE" none false 3).1
        = [2000, 2000] := by
  have h := monoklix_C3_amended envW3 "u" "IMAGEN GENERATE" none false 3 2
    (by decide) (by decide) (by decide) (by decide)
  exact ⟨h.1, h.2.1, h.2.2⟩

/-- Claim C4: when the first admission-gate call of a gated dispatch
returns an error, `fetchWithTokenRotation` fails immediately with the
distinct database-error message, polls the gate exactly once (no retry),
performs zero credential attempts, and records zero telemetry entries. -/
theorem monoklix_C4_gate_error (e : Env) (endpoint ctx : String)
    (spec : Option String) (cb : Bool) (f : Nat) (m : String)
    (hgen : isGenerationRequest ctx = true)
    (hg : e.gate 0 = GateResult.err m) :
    (fetchWithTokenRotation e endpoint ctx spec cb (f + 1)).2
      = some (Except.error
          s!"Database error while requesting a generation slot: {m}")
    ∧ countGate (fetchWithTokenRotation e endpoint ctx spec cb (f + 1)).1
        = 1
    ∧ countAttempts
        (fetchWithTokenRotation e endpoint ctx spec cb (f + 1)).1 = 0
    ∧ countLogs (fetchWithTokenRotation e endpoint ctx spec cb (f + 1)).1
        = 0
    ∧ countBus (fetchWithTokenRotation e endpoint ctx spec cb (f + 1)).1
        = 0 := by
  have hgl := gateLoop_err_first e.gate
    (if endpoint.startsWith (getImagenProxyUrl e.selectedProxy e.isProd)
     then getImagenProxyUrl e.selectedProxy e.isProd
     else getVeoProxyUrl e.selectedProxy e.isProd) cb f m hg
  cases cb <;>
    simp [fetchWithTokenRotation, hgen, hgl, countGate_append, countGate_cons,
      countGate_nil, countAttempts_append, countAttempts_cons,
      countAttempts_nil, countLogs_append, countLogs_cons, countLogs_nil,
      countBus_append, countBus_cons, countBus_nil, isGateEv, isAttemptEv,
      isLogEv, isBusEv]

def envW4 : Env := {
  personalAuthToken := some "p",
  shared := [{ token := "s", createdAt := "2024" }],
  refill := Except.ok [],
  rand := fun _ => 0,
  gate := fun _ => GateResult.err "db down",
  fetch := fun _ _ => FetchResult.thrown "never reached",
  selectedProxy := none,
  isProd := false }

/-- Witness for C4 at a concrete environment with an erroring gate. -/
theorem monoklix_C4_witness :
    (fetchWithTokenRotation envW4 "u" "IMAGEN RECIPE" none true 1).2
      = some (Except.error
          "Database error while requesting a generation slot: db down")
    ∧ countGate (fetchWithTokenRotation envW4 "u" "IMAGEN RECIPE" none
        true 1).1 = 1
    ∧ countAttempts (fetchWithTokenRotation envW4 "u" "IMAGEN RECIPE" none
        true 1).1 = 0
    ∧ countLogs (fetchWithTokenRotation envW4 "u" "IMAGEN RECIPE" none
        true 1).1 = 0 := by
  have h := monoklix_C4_gate_error envW4 "u" "IMAGEN RECIPE" none true 0
    "db down" (by decide) rfl
  exact ⟨h.1, h.2.1, h.2.2.1, h.2.2.2.1⟩

/-- Claim C5: when no explicit credential is given, no personal credential
is configured, the shared pool is empty and the refill yields nothing,
dispatch fails with the `"Auth Token is required"` error and performs zero
credential attempts. -/
theorem monoklix_C5_no_credentials (e : Env) (endpoint ctx : String)
    (cb : Bool) (f : Nat) (hg : e.gate 0 = GateResult.ok true)
    (hp : e.personalAuthToken = none) (hs : e.shared = [])
    (hr : ∀ l, e.refill = Except.ok l → l = []) :
    (fetchWithTokenRotation e endpoint ctx none cb (f + 1)).2
      = some (Except.error
          s!"Auth Token is required for {ctx}. Please set one in Settings.")
    ∧ countAttempts
        (fetchWithTokenRotation e endpoint ctx none cb (f + 1)).1 = 0 := by
  obtain ⟨gevs, hEq, hA, hL, hB, hR, hS⟩ :=
    dispatch_gate_ok e endpoint ctx none cb f hg
  obtain ⟨sp, h1, _, _, h4, h5⟩ := buildCandidates_split e
  have hsh : e.shared.length = 0 := by rw [hs]; rfl
  have hsp : sp = [] := by
    cases hrf : e.refill with
    | ok l =>
      have hl := hr l hrf
      subst hl
      exact List.Perm.eq_nil (h4 hsh [] hrf)
    | error m => exact h5 hsh m hrf
  have hbc2 : (buildCandidates e none).2 = [] := by
    rw [h1, hsp]
    simp [getPersonalToken, hp]
  have hlen : (buildCandidates e none).2.length = 0 := by rw [hbc2]; rfl
  rw [hEq]
  constructor
  · simp [hlen]
  · simp [hlen, countAttempts_append, hA, (buildCandidates_quiet e none).1]

def envW5 : Env := {
  personalAuthToken := none,
  shared := [],
  refill := Except.error "refill down",
  rand := fun _ => 0,
  gate := fun _ => GateResult.ok true,
  fetch := fun _ _ => FetchResult.thrown "never reached",
  selectedProxy := none,
  isProd := false }

/-- Witness for C5 at a concrete environment with no credentials at all. -/
theorem monoklix_C5_witness :
    (fetchWithTokenRotation envW5 "u" "IMAGEN GENERATE" none false 1).2
      = some (Except.error
          "Auth Token is required for IMAGEN GENERATE. Please set one in Settings.")
    ∧ countAttempts
        (fetchWithTokenRotation envW5 "u" "IMAGEN GENERATE" none false 1).1
      = 0 := by
  have h := monoklix_C5_no_credentials envW5 "u" "IMAGEN GENERATE" false 0
    rfl rfl rfl (fun l hl => Except.noConfusion hl)
  exact ⟨h.1, h.2⟩

/-- Claim C6: without an explicit credential the candidate list is the
personal credential first (never repositioned by the shuffle) followed by
a permutation of the shared pool; an empty pool triggers exactly one
refill, whose failure is non-fatal, and the multiset of shared candidates
equals the multiset of pool (or refill) credentials. -/
theorem monoklix_C6_candidate_order (e : Env) :
    ∃ sharedPart : List Token,
      (buildCandidates e none).2 = (getPersonalToken e).toList ++ sharedPart
      ∧ (∀ v, e.personalAuthToken = some v →
          (buildCandidates e none).2.head?
            = some { token := v, createdAt := "personal" })
      ∧ countRefill (buildCandidates e none).1
          = (if e.shared.length = 0 then 1 else 0)
      ∧ (0 < e.shared.length → List.Perm sharedPart e.shared)
      ∧ (e.shared.length = 0 →
          ∀ l, e.refill = Except.ok l → List.Perm sharedPart l)
      ∧ (e.shared.length = 0 →
          ∀ m, e.refill = Except.error m → sharedPart = []) := by
  obtain ⟨sp, h1, h2, h3, h4, h5⟩ := buildCandidates_split e
  refine ⟨sp, h1, ?_, h2, h3, h4, h5⟩
  intro v hv
  rw [h1]
  simp [getPersonalToken, hv]

def envW6 : Env := {
  personalAuthToken := none,
  shared := [],
  refill := Except.ok [{ token := "r1", createdAt := "c1" },
                       { token := "r2", createdAt := "c2" }],
  rand := fun _ => 0,
  gate := fun _ => GateResult.ok true,
  fetch := fun _ _ => FetchResult.thrown "bad",
  selectedProxy := none,
  isProd := false }

/-- Witness for C6 at a concrete environment: empty pool, refill returning
two credentials — the candidate list is a permutation of the refill result
and exactly one refill is attempted. -/
theorem monoklix_C6_witness :
    List.Perm (buildCandidates envW6 none).2
      [{ token := "r1", createdAt := "c1" },
       { token := "r2", createdAt := "c2" }]
    ∧ countRefill (buildCandidates envW6 none).1 = 1 := by
  obtain ⟨sp, h1, _, h3, _, h5, _⟩ := monoklix_C6_candidate_order envW6
  have hsp := h5 rfl [{ token := "r1", createdAt := "c1" },
    { token := "r2", createdAt := "c2" }] rfl
  constructor
  · have hbc : (buildCandidates envW6 none).2 = sp := by simpa using h1
    rw [hbc]
    exact hsp
  · simpa using h3

/-- Counterexample to claim C7 as stated: when the configured personal
credential's value also occurs in the shared pool, the candidate list of
one call contains that value twice — the dispatcher performs no
deduplication. -/
def envC7 : Env := {
  personalAuthToken := some "a",
  shared := [{ token := "a", createdAt := "2024" }],
  refill := Except.ok [],
  rand := fun _ => 0,
  gate := fun _ => GateResult.ok true,
  fetch := fun _ _ => FetchResult.thrown "x",
  selectedProxy := none,
  isProd := false }

theorem monoklix_C7_counterexample :
    ((buildCandidates envC7 none).2.map Token.token) = ["a", "a"]
    ∧ ¬ ((buildCandidates envC7 none).2.map Token.token).Nodup := by
  refine ⟨rfl, by decide⟩

/-- Claim C7 as amended: the dispatcher neither deduplicates nor
duplicates — the candidate list's values are duplicate-free if and only if
the supplied inputs' values are, in every case: a non-empty shared pool,
an empty pool refilled successfully, and an empty pool with a failed
refill. In particular a personal credential value that also occurs in the
(effective) shared pool always yields a duplicated list. -/
theorem monoklix_C7_amended (e : Env) :
    (0 < e.shared.length →
      ((((buildCandidates e none).2).map Token.token).Nodup
        ↔ (((getPersonalToken e).toList ++ e.shared).map Token.token).Nodup))
    ∧ (e.shared.length = 0 → ∀ l, e.refill = Except.ok l →
      ((((buildCandidates e none).2).map Token.token).Nodup
        ↔ (((getPersonalToken e).toList ++ l).map Token.token).Nodup))
    ∧ (e.shared.length = 0 → ∀ m, e.refill = Except.error m →
      ((((buildCandidates e none).2).map Token.token).Nodup
        ↔ ((getPersonalToken e).toList.map Token.token).Nodup)) := by
  obtain ⟨sp, h1, _, h3, h4, h5⟩ := buildCandidates_split e
  refine ⟨?_, ?_, ?_⟩
  · intro hpos
    have hmap := (List.Perm.append_left (getPersonalToken e).toList
      (h3 hpos)).map Token.token
    rw [h1]
    exact List.Perm.nodup_iff hmap
  · intro hsh l hrf
    have hmap := (List.Perm.append_left (getPersonalToken e).toList
      (h4 hsh l hrf)).map Token.token
    rw [h1]
    exact List.Perm.nodup_iff hmap
  · intro hsh m hrf
    rw [h1, h5 hsh m hrf]
    simp

def envW7 : Env := {
  personalAuthToken := some "p",
  shared := [{ token := "s1", createdAt := "2024" },
             { token := "s2", createdAt := "2025" }],
  refill := Except.ok [],
  rand := fun _ => 1,
  gate := fun _ => GateResult.ok true,
  fetch := fun _ _ => FetchResult.thrown "x",
  selectedProxy := none,
  isProd := false }

/-- Witness for the amended C7, exercising both directions of the
biconditional: a pool of pairwise distinct values yields a duplicate-free
candidate list, while a personal value repeated in the pool yields a
duplicated one. -/
theorem monoklix_C7_witness :
    (((buildCandidates envW7 none).2).map Token.token).Nodup
    ∧ ¬ (((buildCandidates envC7 none).2).map Token.token).Nodup := by
  constructor
  · exact ((monoklix_C7_amended envW7).1 (by decide)).mpr (by decide)
  · exact fun h =>
      absurd (((monoklix_C7_amended envC7).1 (by decide)).mp h) (by decide)

/-- Claim C8: on the direct (rotation-bypassed) invocation path of both the
Veo and the Imagen generation services, a response that has not arrived by
the 15000 ms deadline makes the call fail with the fixed
`"Request timed out after 15 seconds."` error; the trace is a single
transport attempt — no retry, no rotation, no gate call, no telemetry. -/
theorem monoklix_C8_direct_timeout (e : Env) (t : String) (i2v : Bool)
    (delay : Nat) (res : FetchResult) (f : Nat)
    (h : DIRECT_TIMEOUT_MS ≤ delay) :
    generateVideoWithVeo3 e (some t) i2v delay res f
      = ([Ev.attempt t],
         some (Except.error "Request timed out after 15 seconds."))
    ∧ generateImageWithImagen e (some t) delay res f
      = ([Ev.attempt t],
         some (Except.error "Request timed out after 15 seconds.")) := by
  constructor <;>
    simp [generateVideoWithVeo3, generateImageWithImagen, directCall, h]

def envW8 : Env := {
  personalAuthToken := some "p",
  shared := [{ token := "s", createdAt := "2024" }],
  refill := Except.ok [],
  rand := fun _ => 0,
  gate := fun _ => GateResult.ok true,
  fetch := fun _ _ => FetchResult.thrown "never reached",
  selectedProxy := none,
  isProd := false }

/-- Witness for C8 at a concrete environment: the stubbed transport takes
exactly the 15000 ms deadline and both direct paths time out with one
attempt each. -/
theorem monoklix_C8_witness :
    generateVideoWithVeo3 envW8 (some "tok") false 15000
      (FetchResult.resp 200 true { errorMessage := none, message := none,
                                   payload := "late" }) 1
      = ([Ev.attempt "tok"],
         some (Except.error "Request timed out after 15 seconds."))
    ∧ generateImageWithImagen envW8 (some "tok") 15000
        (FetchResult.resp 200 true { errorMessage := none, message := none,
                                     payload := "late" }) 1
      = ([Ev.attempt "tok"],
         some (Except.error "Request timed out after 15 seconds.")) := by
  have h := monoklix_C8_direct_timeout envW8 "tok" false 15000
    (FetchResult.resp 200 true { errorMessage := none, message := none,
                                 payload := "late" }) 1 (by decide)
  exact ⟨h.1, h.2⟩

/-- Counterexample to claim C9 as stated: the code recognises the personal
credential by the `createdAt = 'personal'` provenance tag, which a shared
credential may also carry; with a failing personal credential and a failing
shared credential tagged `'personal'`, two `personalTokenFailed` bus events
are published in one call, not exactly one. -/
def envC9 : Env := {
  personalAuthToken := some "p",
  shared := [{ token := "s", createdAt := "personal" }],
  refill := Except.ok [],
  rand := fun _ => 0,
  gate := fun _ => GateResult.ok true,
  fetch := fun _ _ => FetchResult.thrown "bad",
  selectedProxy := none,
  isProd := false }

theorem monoklix_C9_counterexample :
    countBus (fetchWithTokenRotation envC9 "u" "VEO T2V" none false 1).1 = 2
    ∧ countBus (fetchWithTokenRotation envC9 "u" "VEO T2V" none false 1).1
        ≠ 1 := by
  refine ⟨rfl, by decide⟩

/-- Claim C9 as amended: one `personalTokenFailed` bus event is published
per failing attempted candidate carrying the `'personal'` provenance tag;
in particular, when the personal credential is present and fails and no
shared (or refilled) candidate carries that tag, exactly one event is
published for the call, regardless of how many shared candidates follow
and of their outcomes. -/
theorem monoklix_C9_amended (e : Env) (endpoint ctx : String) (cb : Bool)
    (f : Nat) (hg : e.gate 0 = GateResult.ok true) (v : String)
    (hp : e.personalAuthToken = some v)
    (hfail : isErr (fetchEval
      (e.fetch 0 { token := v, createdAt := "personal" })) = true)
    (hshared : ∀ t ∈ e.shared, t.createdAt ≠ "personal")
    (hrefill : ∀ l, e.refill = Except.ok l →
      ∀ t ∈ l, t.createdAt ≠ "personal") :
    countBus (fetchWithTokenRotation e endpoint ctx none cb (f + 1)).1
      = 1 := by
  obtain ⟨gevs, hEq, hA, hL, hB, hR, hS⟩ :=
    dispatch_gate_ok e endpoint ctx none cb f hg
  obtain ⟨sp, h1, _, h3, h4, h5⟩ := buildCandidates_split e
  have hsp : ∀ t ∈ sp, t.createdAt ≠ "personal" := by
    by_cases hsh : e.shared.length = 0
    · cases hrf : e.refill with
      | ok l =>
        intro t ht
        exact hrefill l hrf t ((h4 hsh l hrf).subset ht)
      | error m =>
        rw [h5 hsh m hrf]
        intro t ht
        simp at ht
    · intro t ht
      exact hshared t ((h3 (Nat.pos_of_ne_zero hsh)).subset ht)
  have hbc : (buildCandidates e none).2
      = { token := v, createdAt := "personal" } :: sp := by
    rw [h1]
    simp [getPersonalToken, hp]
  have hlen : ¬ (buildCandidates e none).2.length = 0 := by
    rw [hbc]; simp
  rw [hEq]
  simp only [if_neg hlen]
  rw [countBus_append, countBus_append, hB,
    (buildCandidates_quiet e none).2.2.1, hbc]
  simp only [attemptLoop]
  cases hfe : fetchEval (e.fetch 0 { token := v, createdAt := "personal" }) with
  | ok body =>
    rw [hfe] at hfail
    simp [isErr] at hfail
  | error m =>
    have hrest := attemptLoop_bus_zero e.fetch ctx cb
      e.personalAuthToken.isSome sp hsp 1 (some m)
    cases cb <;>
      simp [hfe, countBus_append, countBus_cons, countBus_nil, isBusEv,
        hrest]

def envW9 : Env := {
  personalAuthToken := some "p",
  shared := [{ token := "s1", createdAt := "2024" },
             { token := "s2", createdAt := "2025" }],
  refill := Except.ok [],
  rand := fun _ => 0,
  gate := fun _ => GateResult.ok true,
  fetch := fun _ _ => FetchResult.thrown "bad",
  selectedProxy := none,
  isProd := false }

/-- Witness for the amended C9 at a concrete environment: a failing
personal credential followed by two failing shared candidates yields
exactly one bus event. -/
theorem monoklix_C9_witness :
    countBus (fetchWithTokenRotation envW9 "u" "VEO T2V" none false 1).1
      = 1 := by
  exact monoklix_C9_amended envW9 "u" "VEO T2V" false 0 rfl "p" rfl
    (by decide) (by decide)
    (fun l hl => by
      obtain rfl := Except.ok.inj hl
      decide)

/-- Claim C10: with an explicit credential the candidate list is exactly
that single credential (no refill and no shuffle feed into it), and when
its sole attempt fails the thrown error is that attempt's error and no
`personalTokenFailed` bus event is published — even if the supplied value
equals the configured personal credential's value. -/
theorem monoklix_C10_explicit_token (e : Env) (endpoint ctx : String)
    (cb : Bool) (f : Nat) (s : String)
    (hg : e.gate 0 = GateResult.ok true) :
    (buildCandidates e (some s)).2 = [{ token := s, createdAt := "N/A" }]
    ∧ countRefill (buildCandidates e (some s)).1 = 0
    ∧ (∀ m, fetchEval (e.fetch 0 { token := s, createdAt := "N/A" })
          = Except.error m →
        (fetchWithTokenRotation e endpoint ctx (some s) cb (f + 1)).2
          = some (Except.error m)
        ∧ countBus (fetchWithTokenRotation e endpoint ctx (some s) cb
            (f + 1)).1 = 0
        ∧ countAttempts (fetchWithTokenRotation e endpoint ctx (some s) cb
            (f + 1)).1 = 1) := by
  refine ⟨rfl, rfl, ?_⟩
  intro m hm
  obtain ⟨gevs, hEq, hA, hL, hB, hR, hS⟩ :=
    dispatch_gate_ok e endpoint ctx (some s) cb f hg
  rw [hEq]
  have hlen : ¬ ((buildCandidates e (some s)).2.length = 0) := by
    simp [buildCandidates]
  simp only [if_neg hlen]
  refine ⟨?_, ?_, ?_⟩
  · cases cb <;> simp [buildCandidates, attemptLoop, hm]
  · cases cb <;>
      simp [buildCandidates, attemptLoop, hm, countBus_append, countBus_cons,
        countBus_nil, isBusEv, hB]
  · cases cb <;>
      simp [buildCandidates, attemptLoop, hm, countAttempts_append,
        countAttempts_cons, countAttempts_nil, isAttemptEv, hA]

def envW10 : Env := {
  personalAuthToken := some "x",
  shared := [{ token := "s", createdAt := "2024" }],
  refill := Except.ok [],
  rand := fun _ => 0,
  gate := fun _ => GateResult.ok true,
  fetch := fun _ _ => FetchResult.thrown "bad",
  selectedProxy := none,
  isProd := false }

/-- Witness for C10 at a concrete environment where the explicit credential
value `"x"` equals the configured personal credential's value: still one
attempt, no bus event, and the attempt's own error is thrown. -/
theorem monoklix_C10_witness :
    (buildCandidates envW10 (some "x")).2
      = [{ token := "x", createdAt := "N/A" }]
    ∧ (fetchWithTokenRotation envW10 "u" "VEO STATUS" (some "x") false 1).2
        = some (Except.error "bad")
    ∧ countBus (fetchWithTokenRotation envW10 "u" "VEO STATUS" (some "x")
        false 1).1 = 0
    ∧ countAttempts (fetchWithTokenRotation envW10 "u" "VEO STATUS"
        (some "x") false 1).1 = 1 := by
  have h := monoklix_C10_explicit_token envW10 "u" "VEO STATUS" false 0 "x"
    rfl
  have h3 := h.2.2 "bad" rfl
  exact ⟨h.1, h3.1, h3.2.1, h3.2.2⟩

end Monoklix
